import Mathlib

/-!
Verification of the Alpha Vantage client core of the stock_mcp_server
repository (`src/utils/alpha_vantage.py`): the sliding-window rate limiter
(`RateLimiter`), the status tracker (`AlphaVantageStatus`), the symbol
normalizer (`format_indian_stock_symbol` / `is_indian_stock`), the fetch
client (`fetch_alpha_vantage_data`) and the trending aggregator
(`get_india_trending_stocks`).

Modelling conventions:
* wall-clock instants are natural numbers of seconds; `datetime` arithmetic
  on `timedelta`s becomes `Nat` comparisons (written with `+` on the right
  so no truncated subtraction is involved);
* the `asyncio.sleep` used to enforce the 12-second minimum spacing is
  modelled by advancing the effective time of the call, exactly as the code
  re-reads `datetime.now()` after the sleep;
* HTTP traffic is an oracle argument: the response the provider would give
  is passed in, and the model records whether the request was issued;
* Python `float` values carried in percent-change strings are modelled
  exactly as scaled decimals (integer mantissa over a power of ten), with
  comparisons by cross multiplication; the decimal-literal fragment of
  `float()` is implemented (exponents, infinities and surrounding
  whitespace are not needed by any claim and are treated as parse
  failures);
* network latency is not modelled: everything that happens after the rate
  limiter admits a call happens at the admission instant.
-/

/-! ### String helpers (Python `str` operations used by the source) -/

/-- Python `str.upper`, on the ASCII alphabet used by the source. -/
def upperChars (cs : List Char) : List Char := cs.map Char.toUpper

/-- Python `str.lower`, on the ASCII alphabet used by the source. -/
def lowerChars (cs : List Char) : List Char := cs.map Char.toLower

/-- Python's substring test `needle in hay`. -/
def containsSubstr (needle hay : String) : Bool :=
  decide (needle.data <:+: hay.data)

/-- Python `s.split(':', 1)` when `':' in s`: the characters before the
first colon and the characters after it; `none` when there is no colon. -/
def splitOnceColon : List Char → Option (List Char × List Char)
  | [] => none
  | c :: rest =>
    if c = ':' then some ([], rest)
    else
      match splitOnceColon rest with
      | some (a, b) => some (c :: a, b)
      | none => none

/-- Python `s.strip(c)` for a single strip character. -/
def stripChar (c : Char) (cs : List Char) : List Char :=
  ((cs.dropWhile (· = c)).reverse.dropWhile (· = c)).reverse

/-- Python `s.strip()` (whitespace). -/
def stripWhitespace (cs : List Char) : List Char :=
  ((cs.dropWhile Char.isWhitespace).reverse.dropWhile Char.isWhitespace).reverse

/-- Value of a digit string, most significant first. -/
def digitsVal (cs : List Char) : Nat :=
  cs.foldl (fun a c => a * 10 + (c.toNat - '0'.toNat)) 0

/-- Unsigned decimal literal: `digits`, `digits.digits`, `digits.` or
`.digits` (at least one digit overall).  The parsed number is kept exactly
as a pair (mantissa, scale) denoting `mantissa / 10 ^ scale`. -/
def parseUnsigned? (cs : List Char) : Option (Int × Nat) :=
  let intPart := cs.takeWhile Char.isDigit
  let rest := cs.dropWhile Char.isDigit
  match rest with
  | [] => if intPart = [] then none else some ((digitsVal intPart : Int), 0)
  | '.' :: frac =>
    if frac.all Char.isDigit ∧ (intPart ≠ [] ∨ frac ≠ []) then
      some ((digitsVal intPart * 10 ^ frac.length + digitsVal frac : Int), frac.length)
    else none
  | _ => none

/-- The decimal-literal fragment of Python `float(s)`, as an exact scaled
decimal `mantissa / 10 ^ scale`. -/
def parseFloat? (cs : List Char) : Option (Int × Nat) :=
  match cs with
  | '-' :: rest => (parseUnsigned? rest).map (fun p => (-p.1, p.2))
  | '+' :: rest => parseUnsigned? rest
  | _ => parseUnsigned? cs

/-- `abs` of a parsed decimal: the pair (|mantissa|, scale). -/
def absVal (p : Int × Nat) : Nat × Nat := (p.1.natAbs, p.2)

/-- Exact order on absolute decimal values, by cross multiplication:
`x.1 / 10 ^ x.2 ≤ y.1 / 10 ^ y.2`. -/
def absValLe (x y : Nat × Nat) : Prop := x.1 * 10 ^ y.2 ≤ y.1 * 10 ^ x.2

instance : DecidableRel absValLe := fun x y =>
  inferInstanceAs (Decidable (x.1 * 10 ^ y.2 ≤ y.1 * 10 ^ x.2))

/-! ### `AlphaVantageStatus` (the global status tracker) -/

/-- One entry of `AlphaVantageStatus.recent_calls`. -/
structure CallRecord where
  timestamp : Nat
  function : String
  symbol : String
  success : Bool
deriving Repr, DecidableEq

/-- State of the `AlphaVantageStatus` tracker. -/
structure AVStatus where
  callsThisMinute : Nat
  lastReset : Nat
  availableCalls : Nat
  isRateLimited : Bool
  resetTime : Option Nat
  recentCalls : List CallRecord
deriving Repr, DecidableEq

/-- `AlphaVantageStatus.__init__` (at clock instant `t`). -/
def AVStatus.init (t : Nat) : AVStatus :=
  { callsThisMinute := 0
    lastReset := t
    availableCalls := 5
    isRateLimited := false
    resetTime := none
    recentCalls := [] }

/-- The minute-window reset step opening `AlphaVantageStatus.update`:
`if (now - last_reset).total_seconds() >= 60: ...`. -/
def AVStatus.minuteRoll (st : AVStatus) (now : Nat) : AVStatus :=
  if st.lastReset + 60 ≤ now then
    { st with callsThisMinute := 0, lastReset := now, availableCalls := 5 }
  else st

/-- `AlphaVantageStatus.update(function, symbol, success)`.
`max(0, 5 - c)` is `Nat` truncated subtraction. -/
def AVStatus.update (st : AVStatus) (now : Nat) (function symbol : String)
    (success : Bool) : AVStatus :=
  let st := st.minuteRoll now
  if success then
    let c := st.callsThisMinute + 1
    let rc := st.recentCalls ++
      [{ timestamp := now, function := function, symbol := symbol, success := success }]
    { st with
      callsThisMinute := c
      availableCalls := 5 - c
      recentCalls := if rc.length > 10 then rc.tail else rc }
  else st

/-- `AlphaVantageStatus.set_rate_limited(duration_minutes)`; the duration is
taken in seconds (the source passes `1` minute, `60` minutes, or
`wait_time/60` where `wait_time` is already in seconds). -/
def AVStatus.setRateLimited (st : AVStatus) (now durationSeconds : Nat) : AVStatus :=
  { st with
    isRateLimited := true
    resetTime := some (now + durationSeconds)
    availableCalls := 0 }

/-- `AlphaVantageStatus.check_reset()`. -/
def AVStatus.checkReset (st : AVStatus) (now : Nat) : Bool × AVStatus :=
  if st.isRateLimited then
    match st.resetTime with
    | some r =>
      if r ≤ now then
        (true, { st with
                 isRateLimited := false
                 availableCalls := 5
                 callsThisMinute := 0
                 lastReset := now })
      else (false, st)
    | none => (false, st)
  else (false, st)

/-- The dictionary returned by `AlphaVantageStatus.get_status`. -/
structure StatusSnapshot where
  availableCalls : Nat
  callsMadeThisMinute : Nat
  isRateLimited : Bool
  secondsToNextReset : Int
  recentCalls : List CallRecord
  rateLimitResetInSeconds : Option Int
deriving Repr, DecidableEq

/-- `AlphaVantageStatus.get_status()`; returns the snapshot together with
the (possibly mutated) tracker state, since `get_status` calls
`check_reset` first. -/
def AVStatus.getStatus (st : AVStatus) (now : Nat) : StatusSnapshot × AVStatus :=
  let st := (st.checkReset now).2
  let timeSinceReset : Int := (now : Int) - (st.lastReset : Int)
  ({ availableCalls := st.availableCalls
     callsMadeThisMinute := st.callsThisMinute
     isRateLimited := st.isRateLimited
     secondsToNextReset := max 0 (60 - timeSinceReset)
     recentCalls := st.recentCalls
     rateLimitResetInSeconds :=
       if st.isRateLimited then
         match st.resetTime with
         | some r => some (max 0 ((r : Int) - (now : Int)))
         | none => none
       else none }, st)

/-! ### `RateLimiter` -/

/-- Constructor arguments of `RateLimiter`. -/
structure RateLimiterConfig where
  callsPerMinute : Nat
  callsPerDay : Nat
deriving Repr, DecidableEq

/-- The global instance: `RateLimiter(calls_per_minute=4,
calls_per_day=ALPHA_VANTAGE_RATE_LIMIT_DAY)` with the config default 500. -/
def globalLimiterConfig : RateLimiterConfig := { callsPerMinute := 4, callsPerDay := 500 }

/-- Mutable state of `RateLimiter` (timestamps oldest first). -/
structure RateLimiter where
  minuteCalls : List Nat
  dayCalls : List Nat
  resetTime : Option Nat
  isRateLimited : Bool
  lastRequestTime : Option Nat
deriving Repr, DecidableEq

def RateLimiter.init : RateLimiter :=
  { minuteCalls := []
    dayCalls := []
    resetTime := none
    isRateLimited := false
    lastRequestTime := none }

/-- `deque(maxlen=cap).append(x)`: append and drop from the left down to
the capacity. -/
def dequePush (cap : Nat) (l : List Nat) (x : Nat) : List Nat :=
  let l' := l ++ [x]
  l'.drop (l'.length - cap)

/-- Result of `RateLimiter.wait_if_needed`: the returned boolean, the two
mutated global states, and the effective clock instant after the internal
minimum-spacing sleep. -/
structure WaitResult where
  proceed : Bool
  limiter : RateLimiter
  status : AVStatus
  effectiveNow : Nat
deriving Repr, DecidableEq

/-- `wait_if_needed`, final phase: the day-limit check, then the
append/bookkeeping of an admitted call. -/
def RateLimiter.admitTail (cfg : RateLimiterConfig) (rl : RateLimiter)
    (st : AVStatus) (now : Nat) : WaitResult :=
  if rl.dayCalls.length ≥ cfg.callsPerDay then
    let d0 := rl.dayCalls.headD 0
    { proceed := false
      limiter := { rl with isRateLimited := true, resetTime := some (d0 + 86400 + 300) }
      status := st.setRateLimited now 3600
      effectiveNow := now }
  else
    let newMinute := dequePush cfg.callsPerMinute rl.minuteCalls now
    { proceed := true
      limiter :=
        { rl with
          minuteCalls := newMinute
          dayCalls := dequePush cfg.callsPerDay rl.dayCalls now
          lastRequestTime := some now }
      status :=
        { st with
          callsThisMinute := newMinute.length
          availableCalls := cfg.callsPerMinute - newMinute.length }
      effectiveNow := now }

/-- `wait_if_needed`, continuation after the rate-limited/reset check:
minimum 12-second spacing (the sleep advances the clock), lazy eviction of
expired window entries, the minute-limit and day-limit checks, and the
bookkeeping of an admitted call.  When a full window is inspected the code
reads `minute_calls[0]`/`day_calls[0]`; the `headD 0` default is only for
totality — both caps are positive in the deployed configuration, so a full
window is nonempty. -/
def RateLimiter.admitCore (cfg : RateLimiterConfig) (rl : RateLimiter)
    (st : AVStatus) (now : Nat) : WaitResult :=
  -- Enforce minimum delay between requests (12 seconds for free tier)
  let now :=
    match rl.lastRequestTime with
    | some t => if now < t + 12 then t + 12 else now
    | none => now
  -- Clean up old timestamps
  let rl :=
    { rl with
      minuteCalls := rl.minuteCalls.dropWhile (fun ts => ts + 60 < now)
      dayCalls := rl.dayCalls.dropWhile (fun ts => ts + 86400 < now) }
  -- Check if we need to wait for rate limits (minute window)
  if rl.minuteCalls.length ≥ cfg.callsPerMinute then
    let m0 := rl.minuteCalls.headD 0
    let rl := { rl with isRateLimited := true, resetTime := some (m0 + 65) }
    if now < m0 + 60 then  -- wait_time = 60 - (now - minute_calls[0]) > 0
      { proceed := false
        limiter := rl
        status := st.setRateLimited now 60
        effectiveNow := now }
    else
      RateLimiter.admitTail cfg rl st now
  else
    RateLimiter.admitTail cfg rl st now

/-- `RateLimiter.wait_if_needed()` at clock instant `now`. -/
def RateLimiter.waitIfNeeded (cfg : RateLimiterConfig) (rl : RateLimiter)
    (st : AVStatus) (now : Nat) : WaitResult :=
  -- If we're currently rate limited, check if enough time has passed
  if rl.isRateLimited then
    match rl.resetTime with
    | some r =>
      if now < r then
        { proceed := false
          limiter := rl
          status := st.setRateLimited now (r - now)
          effectiveNow := now }
      else
        RateLimiter.admitCore cfg
          { rl with isRateLimited := false, minuteCalls := [], dayCalls := [] }
          ((st.checkReset now).2) now
    | none => RateLimiter.admitCore cfg rl st now
  else RateLimiter.admitCore cfg rl st now

/-- `RateLimiter.mark_rate_limited()`: throttle for one minute from now and
propagate to the global status tracker. -/
def RateLimiter.markRateLimited (rl : RateLimiter) (st : AVStatus) (now : Nat) :
    RateLimiter × AVStatus :=
  ({ rl with isRateLimited := true, resetTime := some (now + 60) },
   st.setRateLimited now 60)

/-! ### Symbol normalizer -/

/-- Config default `ALPHA_VANTAGE_DEFAULT_EXCHANGE` (environment overrides
are not modelled). -/
def alphaVantageDefaultExchange : String := "NSE"

/-- `format_indian_stock_symbol`, on character lists. -/
def formatIndianStockSymbolChars (s : List Char) : List Char :=
  match splitOnceColon s with
  | some (exch, tick) =>
    if upperChars exch = "NSE".data ∨ upperChars exch = "BSE".data then
      upperChars exch ++ ':' :: tick
    else
      -- non-Indian exchange specified: replace with NSE
      "NSE".data ++ ':' :: tick
  | none =>
    -- numerical code => likely a BSE symbol
    if s ≠ [] ∧ s.all Char.isDigit then "BSE".data ++ ':' :: s
    else alphaVantageDefaultExchange.data ++ ':' :: s

/-- `format_indian_stock_symbol(symbol)`. -/
def formatIndianStockSymbol (s : String) : String :=
  { data := formatIndianStockSymbolChars s.data }

/-- `is_indian_stock(symbol)`. -/
def isIndianStock (s : String) : Bool :=
  match splitOnceColon s.data with
  | some (exch, _) =>
    decide (upperChars exch = "NSE".data ∨ upperChars exch = "BSE".data)
  | none => true

/-! ### Fetch client (`fetch_alpha_vantage_data`) -/

/-- One entry of a `SYMBOL_SEARCH` response's `bestMatches` list; only the
fields the source inspects are modelled. -/
structure MatchEntry where
  region : String
  name : String
deriving Repr, DecidableEq

/-- A parsed 200-response JSON object: the special fields the source
inspects, plus an opaque remainder. -/
structure JsonData where
  errorMessage : Option String
  note : Option String
  information : Option String
  bestMatches : Option (List MatchEntry)
  payload : String
deriving Repr, DecidableEq

/-- Body of a 200 response: JSON, or text that fails JSON parsing
(`aiohttp.ContentTypeError`, e.g. an HTML error page). -/
inductive BodyKind where
  | json (d : JsonData)
  | nonJson (text : String)
deriving Repr, DecidableEq

/-- The outcome the provider would give for the single HTTP request of one
fetch invocation.  `httpStatus code` is a non-200 response. -/
inductive HttpResponse where
  | ok (body : BodyKind)
  | httpStatus (code : Nat)
  | timeout
  | exn (msg : String)
deriving Repr, DecidableEq

/-- The value returned by `fetch_alpha_vantage_data`: a data dictionary, or
a dictionary bearing an `error` key with the given message. -/
inductive FetchResult where
  | ok (data : JsonData)
  | err (msg : String)
deriving Repr, DecidableEq

/-- Result of one fetch invocation: the returned value, the two global
states after the call, whether the outbound HTTP request was issued, the
number of `av_status.update` invocations performed, and the instant at
which the post-admission work happened. -/
structure FetchOut where
  result : FetchResult
  limiter : RateLimiter
  status : AVStatus
  madeRequest : Bool
  updates : Nat
  effectiveNow : Nat
deriving Repr, DecidableEq

/-- The `SYMBOL_SEARCH` result filter: keep a match when its region
mentions India or its name mentions NSE or BSE. -/
def isIndianMatch (m : MatchEntry) : Bool :=
  containsSubstr "India" m.region ||
    (containsSubstr "NSE" m.name || containsSubstr "BSE" m.name)

/-- Classification of the provider response, lines 295-370 of the source:
everything from `if response.status == 200` to the `except` clauses. -/
def classifyResponse (function symbol : String) (resp : HttpResponse)
    (rl : RateLimiter) (st : AVStatus) (now : Nat) : FetchOut :=
  match resp with
  | .ok (.nonJson text) =>
    if containsSubstr "API call frequency" text then
      let p := rl.markRateLimited st now
      { result := .err "Failed to fetch data. Rate limit exceeded."
        limiter := p.1
        status := (p.2).update now function symbol false
        madeRequest := true, updates := 1, effectiveNow := now }
    else
      { result := .err "Failed to parse API response"
        limiter := rl
        status := st.update now function symbol false
        madeRequest := true, updates := 1, effectiveNow := now }
  | .ok (.json d) =>
    match d.errorMessage with
    | some m =>
      { result := .err ("API Error: " ++ m)
        limiter := rl
        status := st.update now function symbol false
        madeRequest := true, updates := 1, effectiveNow := now }
    | none =>
      if (match d.note with
          | some note => containsSubstr "API call frequency" note
          | none => false) then
        let p := rl.markRateLimited st now
        { result := .err "Failed to fetch data. Rate limit exceeded."
          limiter := p.1
          status := (p.2).update now function symbol false
          madeRequest := true, updates := 1, effectiveNow := now }
      else
        -- an "Information" field is only logged; then the SYMBOL_SEARCH
        -- bestMatches filter, then the success bookkeeping
        let data :=
          if function = "SYMBOL_SEARCH" then
            match d.bestMatches with
            | some ms => { d with bestMatches := some (ms.filter isIndianMatch) }
            | none => d
          else d
        { result := .ok data
          limiter := rl
          status := st.update now function symbol true
          madeRequest := true, updates := 1, effectiveNow := now }
  | .httpStatus code =>
    if code = 403 then
      { result := .err "API authentication failed. Check your API key."
        limiter := rl
        status := st.update now function symbol false
        madeRequest := true, updates := 1, effectiveNow := now }
    else if code = 429 then
      let p := rl.markRateLimited st now
      { result := .err "Failed to fetch data. Rate limit exceeded."
        limiter := p.1
        status := (p.2).update now function symbol false
        madeRequest := true, updates := 1, effectiveNow := now }
    else
      { result := .err ("API request failed with status " ++ toString code)
        limiter := rl
        status := st.update now function symbol false
        madeRequest := true, updates := 1, effectiveNow := now }
  | .timeout =>
    { result := .err "Request timed out"
      limiter := rl
      status := st.update now function symbol false
      madeRequest := true, updates := 1, effectiveNow := now }
  | .exn msg =>
    { result := .err ("Failed to fetch data: " ++ msg)
      limiter := rl
      status := st.update now function symbol false
      madeRequest := true, updates := 1, effectiveNow := now }

/-- `fetch_alpha_vantage_data(function, symbol, **params)` at clock instant
`now`.  `apiKeySet` is the truthiness of `ALPHA_VANTAGE_API_KEY`; `resp` is
the oracle for the one outbound request the call may make.  The formatted
symbol is only used in the request parameters, so it does not appear in the
model beyond the market check. -/
def fetchAlphaVantageData (cfg : RateLimiterConfig) (apiKeySet : Bool)
    (function symbol : String) (resp : HttpResponse)
    (rl : RateLimiter) (st : AVStatus) (now : Nat) : FetchOut :=
  if !apiKeySet then
    { result := .err "Alpha Vantage API key not configured"
      limiter := rl
      status := st.update now function symbol false
      madeRequest := false, updates := 1, effectiveNow := now }
  else if (function ≠ "SYMBOL_SEARCH" ∧ symbol ≠ "") ∧
      !(isIndianStock (formatIndianStockSymbol symbol)) then
    { result := .err "Only Indian stock symbols (NSE/BSE) are supported"
      limiter := rl
      status := st.update now function symbol false
      madeRequest := false, updates := 1, effectiveNow := now }
  else if rl.isRateLimited then
    { result := .err "Failed to fetch data. Rate limit exceeded. Try again later."
      limiter := rl
      status := st.update now function symbol false
      madeRequest := false, updates := 1, effectiveNow := now }
  else
    let w := RateLimiter.waitIfNeeded cfg rl st now
    if !w.proceed then
      { result := .err "Failed to fetch data. Rate limit would be exceeded. Try again later."
        limiter := w.limiter
        status := w.status.update w.effectiveNow function symbol false
        madeRequest := false, updates := 1, effectiveNow := w.effectiveNow }
    else
      classifyResponse function symbol resp w.limiter w.status w.effectiveNow

/-- The append-then-evict step `recent_calls.append(...); if len > 10:
pop(0)` of `AlphaVantageStatus.update` on a successful call. -/
def fifoPush10 (l : List CallRecord) (x : CallRecord) : List CallRecord :=
  let l' := l ++ [x]
  if l'.length > 10 then l'.tail else l'

/-! ### Trace runner for the rate limiter -/

/-- Run `wait_if_needed` at each instant of `ts` in order, threading the
limiter and tracker state, and collect the effective instants of the
admitted calls. -/
def runAttempts (cfg : RateLimiterConfig) :
    RateLimiter → AVStatus → List Nat → List Nat
  | _, _, [] => []
  | rl, st, t :: ts =>
    let w := RateLimiter.waitIfNeeded cfg rl st t
    if w.proceed then w.effectiveNow :: runAttempts cfg w.limiter w.status ts
    else runAttempts cfg w.limiter w.status ts

/-! ### Trending aggregator (`get_india_trending_stocks`) -/

/-- A trending-stock dictionary.  Live entries carry no `is_fallback_data`
key, which reads as falsy; the static catalogue sets it to `True`. -/
structure TrendEntry where
  symbol : String
  companyName : String
  price : String
  changePercentage : String
  sector : String
  trendStrength : String
  priceMomentum : String
  trendInsights : String
  market : String
  isFallbackData : Bool
deriving Repr, DecidableEq

/-- The curated candidate list `major_indian_stocks`. -/
def majorIndianStocks : List String :=
  ["NSE:RELIANCE", "NSE:TCS", "NSE:HDFCBANK", "NSE:INFY", "NSE:HINDUNILVR",
   "NSE:ICICIBANK", "NSE:SBIN", "NSE:BAJFINANCE", "NSE:BHARTIARTL",
   "NSE:KOTAKBANK", "NSE:LT", "NSE:ITC", "NSE:AXISBANK", "NSE:ASIANPAINT",
   "NSE:MARUTI", "NSE:HCLTECH", "NSE:TITAN", "NSE:ADANIPORTS",
   "NSE:BAJAJFINSV", "NSE:WIPRO", "NSE:HDFCLIFE", "NSE:TECHM",
   "NSE:SUNPHARMA", "NSE:DRREDDY", "NSE:DIVISLAB", "NSE:APOLLOHOSP",
   "NSE:M&M", "NSE:HEROMOTOCO", "NSE:TATAMOTOR", "NSE:ONGC",
   "NSE:POWERGRID", "NSE:NTPC", "NSE:COAL", "NSE:TATASTEEL", "NSE:JSWSTEEL",
   "BSE:500325", "BSE:532540", "BSE:500180", "BSE:500209"]

/-- The ticker-to-sector map of `get_sector_for_symbol`. -/
def sectorMap : List (String × String) :=
  [("HDFCBANK", "Banking"), ("ICICIBANK", "Banking"), ("SBIN", "Banking"),
   ("KOTAKBANK", "Banking"), ("AXISBANK", "Banking"),
   ("TCS", "IT Services"), ("INFY", "IT Services"), ("WIPRO", "IT Services"),
   ("HCLTECH", "IT Services"), ("TECHM", "IT Services"),
   ("RELIANCE", "Oil & Gas"), ("ONGC", "Oil & Gas"),
   ("SUNPHARMA", "Pharmaceuticals"), ("DRREDDY", "Pharmaceuticals"),
   ("DIVISLAB", "Pharmaceuticals"),
   ("MARUTI", "Automobile"), ("M&M", "Automobile"),
   ("HEROMOTOCO", "Automobile"), ("TATAMOTOR", "Automobile"),
   ("HINDUNILVR", "Consumer Goods"), ("ITC", "Consumer Goods"),
   ("TITAN", "Consumer Goods"),
   ("POWERGRID", "Power"), ("NTPC", "Power"),
   ("TATASTEEL", "Metals"), ("JSWSTEEL", "Metals"), ("COAL", "Metals"),
   ("BHARTIARTL", "Telecommunications"),
   ("ASIANPAINT", "Paints"), ("LT", "Construction"),
   ("APOLLOHOSP", "Healthcare"), ("ADANIPORTS", "Infrastructure"),
   ("BAJFINANCE", "Financial Services"), ("BAJAJFINSV", "Financial Services"),
   ("HDFCLIFE", "Insurance")]

/-- The BSE-code-to-ticker map of `get_sector_for_symbol`. -/
def bseToTicker : List (String × String) :=
  [("500325", "RELIANCE"), ("532540", "TCS"), ("500180", "HDFCBANK"),
   ("500209", "INFY")]

/-- Characters after the first colon (`symbol.split(':')[1]`); candidate
symbols are always exchange-qualified, so the colon is always present. -/
def afterColon (s : String) : String :=
  match splitOnceColon s.data with
  | some (_, t) => { data := t }
  | none => s

/-- Characters before the first colon (`symbol.split(':')[0]`). -/
def beforeColon (s : String) : String :=
  match splitOnceColon s.data with
  | some (e, _) => { data := e }
  | none => s

/-- `get_sector_for_symbol(symbol)`. -/
def getSectorForSymbol (symbol : String) : String :=
  let ticker := if symbol.data.contains ':' then afterColon symbol else symbol
  let ticker :=
    if ticker.data ≠ [] ∧ ticker.data.all Char.isDigit then
      match bseToTicker.lookup ticker with
      | some t => t
      | none => ticker
    else ticker
  match sectorMap.lookup ticker with
  | some sec => sec
  | none => "Unknown"

/-- The static fallback catalogue of `get_static_trending_stocks`. -/
def staticTrending : List TrendEntry :=
  [{ symbol := "NSE:RELIANCE", companyName := "RELIANCE", price := "2,856.15"
     changePercentage := "1.5%", sector := "Oil & Gas", trendStrength := "MEDIUM"
     priceMomentum := "BULLISH"
     trendInsights := "Reliance has shown medium bullish momentum recently with steady buying interest."
     market := "NSE", isFallbackData := true },
   { symbol := "NSE:TCS", companyName := "TCS", price := "3,567.80"
     changePercentage := "0.8%", sector := "IT Services", trendStrength := "WEAK"
     priceMomentum := "BULLISH"
     trendInsights := "TCS has shown weak bullish momentum with moderate trading volumes."
     market := "NSE", isFallbackData := true },
   { symbol := "NSE:HDFCBANK", companyName := "HDFCBANK", price := "1,678.25"
     changePercentage := "2.1%", sector := "Banking", trendStrength := "STRONG"
     priceMomentum := "BULLISH"
     trendInsights := "HDFC Bank has shown strong bullish momentum with increasing volumes."
     market := "NSE", isFallbackData := true },
   { symbol := "NSE:INFY", companyName := "INFY", price := "1,489.50"
     changePercentage := "-0.7%", sector := "IT Services", trendStrength := "WEAK"
     priceMomentum := "BEARISH"
     trendInsights := "Infosys has shown weak bearish momentum with limited selling pressure."
     market := "NSE", isFallbackData := true },
   { symbol := "NSE:HINDUNILVR", companyName := "HINDUNILVR", price := "2,742.30"
     changePercentage := "0.4%", sector := "Consumer Goods", trendStrength := "WEAK"
     priceMomentum := "BULLISH"
     trendInsights := "Hindustan Unilever has shown weak bullish momentum recently."
     market := "NSE", isFallbackData := true },
   { symbol := "NSE:ICICIBANK", companyName := "ICICIBANK", price := "1,056.75"
     changePercentage := "1.8%", sector := "Banking", trendStrength := "MEDIUM"
     priceMomentum := "BULLISH"
     trendInsights := "ICICI Bank has shown medium bullish momentum with good buying support."
     market := "NSE", isFallbackData := true },
   { symbol := "NSE:SBIN", companyName := "SBIN", price := "789.60"
     changePercentage := "3.2%", sector := "Banking", trendStrength := "STRONG"
     priceMomentum := "BULLISH"
     trendInsights := "SBI has shown strong bullish momentum with high volumes."
     market := "NSE", isFallbackData := true },
   { symbol := "NSE:BAJFINANCE", companyName := "BAJFINANCE", price := "7,124.50"
     changePercentage := "-1.2%", sector := "Financial Services", trendStrength := "MEDIUM"
     priceMomentum := "BEARISH"
     trendInsights := "Bajaj Finance has shown medium bearish momentum with some selling pressure."
     market := "NSE", isFallbackData := true }]

/-- `get_static_trending_stocks(limit)`. -/
def getStaticTrendingStocks (limit : Nat) : List TrendEntry :=
  staticTrending.take limit

/-- `change_percent.strip("%").strip()`. -/
def cleanPercent (s : String) : List Char :=
  stripWhitespace (stripChar '%' s.data)

/-- The live trend entry built for one successful quote. -/
def mkLiveTrendEntry (symbol price changePercent : String) : TrendEntry :=
  let (trend, strength) :=
    match parseFloat? (cleanPercent changePercent) with
    | some v =>
      (if 0 < v.1 then "BULLISH" else "BEARISH",
       if 3 * 10 ^ v.2 < v.1.natAbs then "STRONG"
       else if 10 ^ v.2 < v.1.natAbs then "MEDIUM" else "WEAK")
    | none => ("NEUTRAL", "WEAK")
  { symbol := symbol
    companyName := afterColon symbol
    price := price
    changePercentage := changePercent
    sector := getSectorForSymbol symbol
    trendStrength := strength
    priceMomentum := trend
    trendInsights := "Stock has shown " ++ { data := lowerChars strength.data } ++ " " ++
      { data := lowerChars trend.data } ++
      " momentum recently with " ++ changePercent ++ " change."
    market := beforeColon symbol
    isFallbackData := false }

/-- Abstraction of one `get_stock_quote` call inside the trending scan: a
dictionary with an `error` key, a dictionary whose `Global Quote` carries
the listed price and change-percent strings (with the defaults `"N/A"` /
`"0%"` already applied for missing fields), or a response with neither.
`marksLimiter` records whether the underlying fetch set the shared rate
limiter's throttle flag; in the source every path that does so returns an
error whose text contains `Rate limit`, but the oracle does not assume
this. -/
inductive QuoteOutcome where
  | errMsg (msg : String) (marksLimiter : Bool)
  | quote (price changePercent : String)
  | noQuote
deriving Repr, DecidableEq

/-- The candidate scan of `get_india_trending_stocks`: walks the candidate
symbols, consuming the `k`-th oracle outcome for the `k`-th quote call;
`limiterFlag` is `rate_limiter.is_rate_limited`, checked at the top of each
iteration; returns the live entries and the local `rate_limited` flag. -/
def trendingScan (limit : Nat) (outcome : Nat → QuoteOutcome) :
    List String → Nat → Bool → List TrendEntry → List TrendEntry × Bool
  | [], _, _, acc => (acc, false)
  | sym :: rest, k, limiterFlag, acc =>
    if limiterFlag then (acc, true)
    else
      match outcome k with
      | .errMsg msg marks =>
        if containsSubstr "rate limit" { data := lowerChars msg.data } then (acc, true)
        else trendingScan limit outcome rest (k + 1) marks acc
      | .noQuote => trendingScan limit outcome rest (k + 1) limiterFlag acc
      | .quote price changePercent =>
        if price = "N/A" ∨ changePercent = "0%" then
          trendingScan limit outcome rest (k + 1) limiterFlag acc
        else
          let acc' := acc ++ [mkLiveTrendEntry sym price changePercent]
          if acc'.length ≥ limit then (acc', false)
          else trendingScan limit outcome rest (k + 1) limiterFlag acc'

/-- The scan plus the fallback padding: live entries, extended from the
static catalogue when the scan was cut short or fell short of `limit`. -/
def trendingCombined (limit : Nat) (outcome : Nat → QuoteOutcome) : List TrendEntry :=
  let symbolsToTry := min (limit * 2) majorIndianStocks.length
  let scanned := trendingScan limit outcome (majorIndianStocks.take symbolsToTry) 0 false []
  if scanned.2 || scanned.1.length < limit then
    scanned.1 ++ getStaticTrendingStocks (limit - scanned.1.length)
  else scanned.1

/-- The sort key: `abs(float(x["change_percentage"].strip("%").strip()))`. -/
def trendKey (e : TrendEntry) : Option (Nat × Nat) :=
  (parseFloat? (cleanPercent e.changePercentage)).map absVal

/-- The `trending_stocks.sort(key=..., reverse=True)` step.  CPython
computes all sort keys before reordering, so a `ValueError` from an
unparseable percentage (caught by the surrounding `except: pass`) leaves
the list unchanged; otherwise the list is stably sorted by descending key
(modelled by insertion sort, which is also stable). -/
def sortTrending (l : List TrendEntry) : List TrendEntry :=
  if l.all (fun e => (trendKey e).isSome) then
    List.insertionSort
      (fun a b => absValLe ((trendKey b).getD (0, 0)) ((trendKey a).getD (0, 0))) l
  else l

/-- `get_india_trending_stocks(limit)`.  `limiterRateLimited` is
`rate_limiter.is_rate_limited` at entry; `outcome` is the quote oracle. -/
def getIndiaTrendingStocks (limit : Nat) (limiterRateLimited : Bool)
    (outcome : Nat → QuoteOutcome) : List TrendEntry :=
  if limiterRateLimited then getStaticTrendingStocks limit
  else (sortTrending (trendingCombined limit outcome)).take limit

/-! ### Helper lemmas: the symbol normalizer -/

/-- Splitting at the first colon of `a ++ ':' :: b` when `a` is colon-free. -/
theorem splitOnceColon_append (a b : List Char) (h : ':' ∉ a) :
    splitOnceColon (a ++ ':' :: b) = some (a, b) := by
  induction a with
  | nil => simp [splitOnceColon]
  | cons c cs ih =>
    have hc : c ≠ ':' := fun hcc => h (hcc ▸ List.mem_cons_self c cs)
    have hcs : ':' ∉ cs := fun hm => h (List.mem_cons_of_mem c hm)
    simp [splitOnceColon, hc, ih hcs]

/-- Every output of the normalizer has the shape `p ++ ':' :: t` with `p`
the NSE or BSE prefix. -/
theorem formatIndianStockSymbolChars_shape (s : List Char) :
    ∃ p t, formatIndianStockSymbolChars s = p ++ ':' :: t ∧
      (p = "NSE".data ∨ p = "BSE".data) := by
  unfold formatIndianStockSymbolChars
  match hs : splitOnceColon s with
  | some (exch, tick) =>
    by_cases hm : upperChars exch = "NSE".data ∨ upperChars exch = "BSE".data
    · exact ⟨upperChars exch, tick, by dsimp only; rw [if_pos hm], hm⟩
    · exact ⟨"NSE".data, tick, by dsimp only; rw [if_neg hm], Or.inl rfl⟩
  | none =>
    by_cases hd : s ≠ [] ∧ s.all Char.isDigit
    · exact ⟨"BSE".data, s, by dsimp only; rw [if_pos hd], Or.inr rfl⟩
    · exact ⟨"NSE".data, s, by dsimp only; rw [if_neg hd]; rfl, Or.inl rfl⟩

/-- The normalizer is the identity on strings of the shape it produces. -/
theorem formatIndianStockSymbolChars_fixed (p t : List Char)
    (hp : p = "NSE".data ∨ p = "BSE".data) :
    formatIndianStockSymbolChars (p ++ ':' :: t) = p ++ ':' :: t := by
  have hN : upperChars "NSE".data = "NSE".data := by decide
  have hB : upperChars "BSE".data = "BSE".data := by decide
  have hnc : ':' ∉ p := by rcases hp with h | h <;> subst h <;> decide
  unfold formatIndianStockSymbolChars
  rw [splitOnceColon_append p t hnc]
  dsimp only
  rcases hp with h | h <;> subst h <;> simp +decide [hN, hB]

/-- Shared helper: the normalized form of any input passes the Indian-stock
check. -/
theorem isIndianStock_format (s : String) :
    isIndianStock (formatIndianStockSymbol s) = true := by
  obtain ⟨p, t, hshape, hp⟩ := formatIndianStockSymbolChars_shape s.data
  unfold isIndianStock formatIndianStockSymbol
  simp only [hshape]
  rcases hp with h | h <;> subst h <;>
    rw [splitOnceColon_append _ t (by decide)] <;> dsimp only <;> decide

/-- C9: the symbol normalizer is idempotent: for every input string `x`,
normalizing the string form of `normalize(x)` returns `normalize(x)`
unchanged. -/
theorem formatIndianStockSymbol_idempotent (x : String) :
    formatIndianStockSymbol (formatIndianStockSymbol x) = formatIndianStockSymbol x := by
  obtain ⟨p, t, hshape, hp⟩ := formatIndianStockSymbolChars_shape x.data
  unfold formatIndianStockSymbol
  simp only [hshape]
  exact congrArg String.mk (formatIndianStockSymbolChars_fixed p t hp)

/-! ### Helper lemmas: fetch results -/

/-- An error message that does not start with `O` is not the
unsupported-market message. -/
theorem err_ne_unsupported (msg : String) (c : Char) (t : List Char)
    (hd : msg.data = c :: t) (hc : c ≠ 'O') :
    FetchResult.err msg ≠
      FetchResult.err "Only Indian stock symbols (NSE/BSE) are supported" := by
  intro h
  have h3 := congrArg String.data (FetchResult.err.inj h)
  rw [hd] at h3
  exact hc (Option.some.inj (congrArg List.head? h3))

/-- No branch of the response classifier produces the unsupported-market
error. -/
theorem classifyResponse_ne_unsupported (function symbol : String)
    (resp : HttpResponse) (rl : RateLimiter) (st : AVStatus) (now : Nat) :
    (classifyResponse function symbol resp rl st now).result ≠
      FetchResult.err "Only Indian stock symbols (NSE/BSE) are supported" := by
  cases resp with
  | ok body =>
    cases body with
    | nonJson text =>
      unfold classifyResponse
      dsimp only
      split
      · exact err_ne_unsupported _ 'F' _ rfl (by decide)
      · exact err_ne_unsupported _ 'F' _ rfl (by decide)
    | json d =>
      obtain ⟨em, note, info, bm, payload⟩ := d
      cases em with
      | some m =>
        unfold classifyResponse
        dsimp only
        exact err_ne_unsupported _ 'A' ("PI Error: ".data ++ m.data)
          (by rw [String.data_append]; rfl) (by decide)
      | none =>
        unfold classifyResponse
        dsimp only
        split
        · exact err_ne_unsupported _ 'F' _ rfl (by decide)
        · intro hh; exact FetchResult.noConfusion hh
  | httpStatus code =>
    unfold classifyResponse
    dsimp only
    split
    · exact err_ne_unsupported _ 'A' _ rfl (by decide)
    · split
      · exact err_ne_unsupported _ 'F' _ rfl (by decide)
      · exact err_ne_unsupported _ 'A'
          ("PI request failed with status ".data ++ (toString code).data)
          (by rw [String.data_append]; rfl) (by decide)
  | timeout =>
    unfold classifyResponse
    dsimp only
    exact err_ne_unsupported _ 'R' _ rfl (by decide)
  | exn msg =>
    unfold classifyResponse
    dsimp only
    exact err_ne_unsupported _ 'F' ("ailed to fetch data: ".data ++ msg.data)
      (by rw [String.data_append]; rfl) (by decide)

/-- C10: every normalized symbol passes the Indian-market check, so the
unsupported-market branch of the fetch client is unreachable: no invocation
of the fetch operation, whatever the inputs and provider response, returns
the "Only Indian stock symbols (NSE/BSE) are supported" error. -/
theorem fetch_unsupported_market_unreachable :
    (∀ s : String, isIndianStock (formatIndianStockSymbol s) = true) ∧
    ∀ (cfg : RateLimiterConfig) (apiKeySet : Bool) (function symbol : String)
      (resp : HttpResponse) (rl : RateLimiter) (st : AVStatus) (now : Nat),
      (fetchAlphaVantageData cfg apiKeySet function symbol resp rl st now).result ≠
        FetchResult.err "Only Indian stock symbols (NSE/BSE) are supported" := by
  refine ⟨isIndianStock_format, ?_⟩
  intro cfg apiKeySet function symbol resp rl st now
  unfold fetchAlphaVantageData
  split
  · exact err_ne_unsupported _ 'A' _ rfl (by decide)
  split
  · next h =>
    exfalso
    have h2 := h.2
    rw [isIndianStock_format symbol] at h2
    exact absurd h2 (by decide)
  split
  · exact err_ne_unsupported _ 'F' _ rfl (by decide)
  dsimp only
  split
  · exact err_ne_unsupported _ 'F' _ rfl (by decide)
  · exact classifyResponse_ne_unsupported function symbol resp _ _ _

/-- C2: whenever the market check on the normalized symbol fails or the
limiter is already in the throttled state, the fetch operation returns an
error dictionary, issues no outbound HTTP request, and leaves the rate
limiter (in particular both rate windows) untouched. -/
theorem fetch_refuses_without_request
    (cfg : RateLimiterConfig) (apiKeySet : Bool) (function symbol : String)
    (resp : HttpResponse) (rl : RateLimiter) (st : AVStatus) (now : Nat)
    (h : isIndianStock (formatIndianStockSymbol symbol) = false ∨
      rl.isRateLimited = true) :
    (∃ m, (fetchAlphaVantageData cfg apiKeySet function symbol resp rl st now).result =
        FetchResult.err m) ∧
    (fetchAlphaVantageData cfg apiKeySet function symbol resp rl st now).madeRequest = false ∧
    (fetchAlphaVantageData cfg apiKeySet function symbol resp rl st now).limiter = rl := by
  rcases h with h | h
  · rw [isIndianStock_format symbol] at h
    exact absurd h (by decide)
  · unfold fetchAlphaVantageData
    split
    · exact ⟨⟨_, rfl⟩, rfl, rfl⟩
    split
    · exact ⟨⟨_, rfl⟩, rfl, rfl⟩
    exact ⟨⟨_, rfl⟩, rfl, rfl⟩

/-- Witness for `fetch_refuses_without_request`: a throttled limiter at a
concrete fetch invocation. -/
theorem fetch_refuses_without_request_witness :
    (∃ m, (fetchAlphaVantageData ⟨4, 500⟩ true "GLOBAL_QUOTE" "NSE:RELIANCE"
        HttpResponse.timeout
        { RateLimiter.init with isRateLimited := true, resetTime := some 60 }
        (AVStatus.init 0) 0).result = FetchResult.err m) ∧
    (fetchAlphaVantageData ⟨4, 500⟩ true "GLOBAL_QUOTE" "NSE:RELIANCE"
        HttpResponse.timeout
        { RateLimiter.init with isRateLimited := true, resetTime := some 60 }
        (AVStatus.init 0) 0).madeRequest = false ∧
    (fetchAlphaVantageData ⟨4, 500⟩ true "GLOBAL_QUOTE" "NSE:RELIANCE"
        HttpResponse.timeout
        { RateLimiter.init with isRateLimited := true, resetTime := some 60 }
        (AVStatus.init 0) 0).limiter =
      { RateLimiter.init with isRateLimited := true, resetTime := some 60 } :=
  fetch_refuses_without_request ⟨4, 500⟩ true "GLOBAL_QUOTE" "NSE:RELIANCE"
    HttpResponse.timeout
    { RateLimiter.init with isRateLimited := true, resetTime := some 60 }
    (AVStatus.init 0) 0 (Or.inr rfl)

/-! ### Helper lemmas: the recent-calls log -/

/-- The minute-window reset never touches the recent-calls log. -/
theorem AVStatus.minuteRoll_recentCalls (st : AVStatus) (now : Nat) :
    (st.minuteRoll now).recentCalls = st.recentCalls := by
  unfold AVStatus.minuteRoll
  split <;> rfl

/-- A failed-call update never touches the recent-calls log. -/
theorem AVStatus.update_false_recentCalls (st : AVStatus) (now : Nat)
    (f s : String) :
    (st.update now f s false).recentCalls = st.recentCalls := by
  unfold AVStatus.update
  simp only [Bool.false_eq_true, if_false, AVStatus.minuteRoll_recentCalls]

/-- A successful-call update appends one record, evicting from the front
past ten entries. -/
theorem AVStatus.update_true_recentCalls (st : AVStatus) (now : Nat)
    (f s : String) :
    (st.update now f s true).recentCalls =
      fifoPush10 st.recentCalls
        { timestamp := now, function := f, symbol := s, success := true } := by
  unfold AVStatus.update fifoPush10
  simp only [if_true, AVStatus.minuteRoll_recentCalls]

/-- `set_rate_limited` never touches the recent-calls log. -/
theorem AVStatus.setRateLimited_recentCalls (st : AVStatus) (now d : Nat) :
    (st.setRateLimited now d).recentCalls = st.recentCalls := rfl

/-- `check_reset` never touches the recent-calls log. -/
theorem AVStatus.checkReset_recentCalls (st : AVStatus) (now : Nat) :
    ((st.checkReset now).2).recentCalls = st.recentCalls := by
  unfold AVStatus.checkReset
  split
  · split
    · split <;> rfl
    · rfl
  · rfl

/-- `wait_if_needed` never touches the recent-calls log. -/
theorem RateLimiter.waitIfNeeded_recentCalls (cfg : RateLimiterConfig)
    (rl : RateLimiter) (st : AVStatus) (now : Nat) :
    (RateLimiter.waitIfNeeded cfg rl st now).status.recentCalls = st.recentCalls := by
  have htail : ∀ rl' st' now', (RateLimiter.admitTail cfg rl' st' now').status.recentCalls
      = st'.recentCalls := by
    intro rl' st' now'
    unfold RateLimiter.admitTail
    split <;> rfl
  have hcore : ∀ rl' st' now', (RateLimiter.admitCore cfg rl' st' now').status.recentCalls
      = st'.recentCalls := by
    intro rl' st' now'
    unfold RateLimiter.admitCore
    dsimp only
    split
    · split
      · rfl
      · exact htail _ _ _
    · exact htail _ _ _
  unfold RateLimiter.waitIfNeeded
  split
  · split
    · split
      · rfl
      · rw [hcore, AVStatus.checkReset_recentCalls]
    · exact hcore _ _ _
  · exact hcore _ _ _

/-- The bounded log stays bounded. -/
theorem fifoPush10_length_le (l : List CallRecord) (x : CallRecord)
    (h : l.length ≤ 10) : (fifoPush10 l x).length ≤ 10 := by
  unfold fifoPush10
  dsimp only
  split
  · simp only [List.length_tail, List.length_append, List.length_singleton]
    omega
  · next hshort =>
    simp only [List.length_append, List.length_singleton] at *
    omega

/-- Response classification performs exactly one `update`; the log gains a
record exactly on the success branch. -/
theorem classifyResponse_record (function symbol : String)
    (resp : HttpResponse) (rl : RateLimiter) (st : AVStatus) (now : Nat) :
    (classifyResponse function symbol resp rl st now).updates = 1 ∧
    (classifyResponse function symbol resp rl st now).effectiveNow = now ∧
    (∀ d, (classifyResponse function symbol resp rl st now).result = FetchResult.ok d →
      (classifyResponse function symbol resp rl st now).status.recentCalls =
        fifoPush10 st.recentCalls
          { timestamp := now, function := function, symbol := symbol, success := true }) ∧
    (∀ m, (classifyResponse function symbol resp rl st now).result = FetchResult.err m →
      (classifyResponse function symbol resp rl st now).status.recentCalls =
        st.recentCalls) := by
  cases resp with
  | ok body =>
    cases body with
    | nonJson text =>
      unfold classifyResponse
      dsimp only
      split <;>
        exact ⟨rfl, rfl, fun d hd => by simp at hd,
          fun m hm => by simp only [AVStatus.update_false_recentCalls]; try rfl⟩
    | json d =>
      obtain ⟨em, note, info, bm, payload⟩ := d
      cases em with
      | some m =>
        unfold classifyResponse
        dsimp only
        exact ⟨rfl, rfl, fun d hd => by simp at hd,
          fun m hm => by simp only [AVStatus.update_false_recentCalls]; try rfl⟩
      | none =>
        unfold classifyResponse
        dsimp only
        split
        · exact ⟨rfl, rfl, fun d hd => by simp at hd,
            fun m hm => by simp only [AVStatus.update_false_recentCalls]; try rfl⟩
        · exact ⟨rfl, rfl, fun d hd => by rw [AVStatus.update_true_recentCalls],
            fun m hm => by simp at hm⟩
  | httpStatus code =>
    unfold classifyResponse
    dsimp only
    split
    · exact ⟨rfl, rfl, fun d hd => by simp at hd,
        fun m hm => by simp only [AVStatus.update_false_recentCalls]; try rfl⟩
    · split <;>
        exact ⟨rfl, rfl, fun d hd => by simp at hd,
          fun m hm => by simp only [AVStatus.update_false_recentCalls]; try rfl⟩
  | timeout =>
    unfold classifyResponse
    dsimp only
    exact ⟨rfl, rfl, fun d hd => by simp at hd,
      fun m hm => by simp only [AVStatus.update_false_recentCalls]; try rfl⟩
  | exn msg =>
    unfold classifyResponse
    dsimp only
    exact ⟨rfl, rfl, fun d hd => by simp at hd,
      fun m hm => by simp only [AVStatus.update_false_recentCalls]; try rfl⟩

/-- C3 (amended): every branch of the fetch operation — success or any
failure — invokes the status tracker's `update` exactly once; the
recent-calls log stays bounded by 10 with FIFO eviction; a `CallRecord` is
appended exactly when the call succeeded, and failure branches leave the
log unchanged. -/
theorem fetch_record_once_bounded (cfg : RateLimiterConfig) (apiKeySet : Bool)
    (function symbol : String) (resp : HttpResponse)
    (rl : RateLimiter) (st : AVStatus) (now : Nat)
    (hlen : st.recentCalls.length ≤ 10) :
    (fetchAlphaVantageData cfg apiKeySet function symbol resp rl st now).updates = 1 ∧
    (fetchAlphaVantageData cfg apiKeySet function symbol resp rl st now).status.recentCalls.length ≤ 10 ∧
    (∀ d, (fetchAlphaVantageData cfg apiKeySet function symbol resp rl st now).result =
        FetchResult.ok d →
      (fetchAlphaVantageData cfg apiKeySet function symbol resp rl st now).status.recentCalls =
        fifoPush10 st.recentCalls
          { timestamp := (fetchAlphaVantageData cfg apiKeySet function symbol resp rl st now).effectiveNow
            function := function, symbol := symbol, success := true }) ∧
    (∀ m, (fetchAlphaVantageData cfg apiKeySet function symbol resp rl st now).result =
        FetchResult.err m →
      (fetchAlphaVantageData cfg apiKeySet function symbol resp rl st now).status.recentCalls =
        st.recentCalls) := by
  unfold fetchAlphaVantageData
  split
  · exact ⟨rfl, by simp only [AVStatus.update_false_recentCalls]; exact hlen,
      fun d hd => by simp at hd,
      fun m hm => by simp only [AVStatus.update_false_recentCalls]⟩
  split
  · exact ⟨rfl, by simp only [AVStatus.update_false_recentCalls]; exact hlen,
      fun d hd => by simp at hd,
      fun m hm => by simp only [AVStatus.update_false_recentCalls]⟩
  split
  · exact ⟨rfl, by simp only [AVStatus.update_false_recentCalls]; exact hlen,
      fun d hd => by simp at hd,
      fun m hm => by simp only [AVStatus.update_false_recentCalls]⟩
  dsimp only
  split
  · exact ⟨rfl,
      by simp only [AVStatus.update_false_recentCalls,
        RateLimiter.waitIfNeeded_recentCalls]; exact hlen,
      fun d hd => by simp at hd,
      fun m hm => by simp only [AVStatus.update_false_recentCalls,
        RateLimiter.waitIfNeeded_recentCalls]⟩
  · have hrec := RateLimiter.waitIfNeeded_recentCalls cfg rl st now
    obtain ⟨h1, heff, h2, h3⟩ := classifyResponse_record function symbol resp
      (RateLimiter.waitIfNeeded cfg rl st now).limiter
      (RateLimiter.waitIfNeeded cfg rl st now).status
      (RateLimiter.waitIfNeeded cfg rl st now).effectiveNow
    refine ⟨h1, ?_, ?_, ?_⟩
    · rcases hres : (classifyResponse function symbol resp
          (RateLimiter.waitIfNeeded cfg rl st now).limiter
          (RateLimiter.waitIfNeeded cfg rl st now).status
          (RateLimiter.waitIfNeeded cfg rl st now).effectiveNow).result with d | m
      · rw [h2 d hres, hrec]
        exact fifoPush10_length_le _ _ hlen
      · rw [h3 m hres, hrec]
        exact hlen
    · intro d hd
      rw [h2 d hd, hrec, heff]
    · intro m hm
      rw [h3 m hm, hrec]

/-- Witness for `fetch_record_once_bounded` at a concrete successful fetch. -/
theorem fetch_record_once_bounded_witness :
    (fetchAlphaVantageData ⟨4, 500⟩ true "GLOBAL_QUOTE" "NSE:RELIANCE"
        (HttpResponse.ok (BodyKind.json ⟨none, none, none, none, "quote"⟩))
        RateLimiter.init (AVStatus.init 0) 0).updates = 1 ∧
    (fetchAlphaVantageData ⟨4, 500⟩ true "GLOBAL_QUOTE" "NSE:RELIANCE"
        (HttpResponse.ok (BodyKind.json ⟨none, none, none, none, "quote"⟩))
        RateLimiter.init (AVStatus.init 0) 0).status.recentCalls.length ≤ 10 ∧
    (∀ d, (fetchAlphaVantageData ⟨4, 500⟩ true "GLOBAL_QUOTE" "NSE:RELIANCE"
        (HttpResponse.ok (BodyKind.json ⟨none, none, none, none, "quote"⟩))
        RateLimiter.init (AVStatus.init 0) 0).result = FetchResult.ok d →
      (fetchAlphaVantageData ⟨4, 500⟩ true "GLOBAL_QUOTE" "NSE:RELIANCE"
        (HttpResponse.ok (BodyKind.json ⟨none, none, none, none, "quote"⟩))
        RateLimiter.init (AVStatus.init 0) 0).status.recentCalls =
        fifoPush10 (AVStatus.init 0).recentCalls
          { timestamp := (fetchAlphaVantageData ⟨4, 500⟩ true "GLOBAL_QUOTE" "NSE:RELIANCE"
              (HttpResponse.ok (BodyKind.json ⟨none, none, none, none, "quote"⟩))
              RateLimiter.init (AVStatus.init 0) 0).effectiveNow
            function := "GLOBAL_QUOTE", symbol := "NSE:RELIANCE", success := true }) ∧
    (∀ m, (fetchAlphaVantageData ⟨4, 500⟩ true "GLOBAL_QUOTE" "NSE:RELIANCE"
        (HttpResponse.ok (BodyKind.json ⟨none, none, none, none, "quote"⟩))
        RateLimiter.init (AVStatus.init 0) 0).result = FetchResult.err m →
      (fetchAlphaVantageData ⟨4, 500⟩ true "GLOBAL_QUOTE" "NSE:RELIANCE"
        (HttpResponse.ok (BodyKind.json ⟨none, none, none, none, "quote"⟩))
        RateLimiter.init (AVStatus.init 0) 0).status.recentCalls =
        (AVStatus.init 0).recentCalls) :=
  fetch_record_once_bounded ⟨4, 500⟩ true "GLOBAL_QUOTE" "NSE:RELIANCE"
    (HttpResponse.ok (BodyKind.json ⟨none, none, none, none, "quote"⟩))
    RateLimiter.init (AVStatus.init 0) 0 (by decide)

/-- C3 counterexample: on a failure branch (here: the limiter already
throttled) `update` is invoked exactly once, yet no `CallRecord` is
appended to the recent-calls log — the log only grows on successful calls,
refuting the claim that each record operation appends an entry. -/
theorem fetch_record_append_counterexample :
    (fetchAlphaVantageData ⟨4, 500⟩ true "GLOBAL_QUOTE" "NSE:RELIANCE"
        HttpResponse.timeout
        { RateLimiter.init with isRateLimited := true, resetTime := some 60 }
        (AVStatus.init 0) 0).updates = 1 ∧
    ¬ ((fetchAlphaVantageData ⟨4, 500⟩ true "GLOBAL_QUOTE" "NSE:RELIANCE"
        HttpResponse.timeout
        { RateLimiter.init with isRateLimited := true, resetTime := some 60 }
        (AVStatus.init 0) 0).status.recentCalls.length =
      (AVStatus.init 0).recentCalls.length + 1) := by
  constructor
  · rfl
  · decide

/-! ### C7: the status snapshot -/

/-- C7 counterexample: `get_status` is not a pure projection.  With an
expired explicit throttle pending, a single `get_status` call clears the
throttle flag and resets the counters, mutating the tracker state. -/
theorem getStatus_mutates_counterexample :
    (AVStatus.getStatus
        { callsThisMinute := 3, lastReset := 0, availableCalls := 0
          isRateLimited := true, resetTime := some 10, recentCalls := [] } 20).2 ≠
      { callsThisMinute := 3, lastReset := 0, availableCalls := 0
        isRateLimited := true, resetTime := some 10, recentCalls := [] } := by
  decide

/-- C7 (amended): `get_status` never touches the recent-calls log or the
limiter's rate windows, and its only mutation is the lazy clearing of an
expired explicit throttle via `check_reset`.  When no throttle deadline has
passed by the later call, two consecutive `get_status` calls with no
intervening admission leave the state untouched and return identical
snapshots except for the reset-countdown fields. -/
theorem getStatus_pure_without_expiry (st : AVStatus) (t1 t2 : Nat)
    (h12 : t1 ≤ t2)
    (h : ¬ (st.isRateLimited = true ∧ ∃ r, st.resetTime = some r ∧ r ≤ t2)) :
    (st.getStatus t1).2 = st ∧ (st.getStatus t2).2 = st ∧
    (st.getStatus t1).1.availableCalls = (st.getStatus t2).1.availableCalls ∧
    (st.getStatus t1).1.callsMadeThisMinute = (st.getStatus t2).1.callsMadeThisMinute ∧
    (st.getStatus t1).1.isRateLimited = (st.getStatus t2).1.isRateLimited ∧
    (st.getStatus t1).1.recentCalls = (st.getStatus t2).1.recentCalls := by
  have hcr : ∀ t, t ≤ t2 → (st.checkReset t).2 = st := by
    intro t ht
    unfold AVStatus.checkReset
    split
    · next hrl =>
      match hr : st.resetTime with
      | some r =>
        dsimp only
        split
        · next hle => exact absurd ⟨hrl, r, hr, Nat.le_trans hle ht⟩ h
        · rfl
      | none => rfl
    · rfl
  have h1 : (st.getStatus t1).2 = st := by
    unfold AVStatus.getStatus
    dsimp only
    rw [hcr t1 (Nat.le_trans h12 (Nat.le_refl t2))]
  have h2 : (st.getStatus t2).2 = st := by
    unfold AVStatus.getStatus
    dsimp only
    rw [hcr t2 (Nat.le_refl t2)]
  refine ⟨h1, h2, ?_, ?_, ?_, ?_⟩ <;>
    · unfold AVStatus.getStatus
      dsimp only
      rw [hcr t1 (Nat.le_trans h12 (Nat.le_refl t2)), hcr t2 (Nat.le_refl t2)]

/-- Witness for `getStatus_pure_without_expiry`: an un-throttled tracker
observed at seconds 5 and 9. -/
theorem getStatus_pure_without_expiry_witness :
    ((AVStatus.init 0).getStatus 5).2 = AVStatus.init 0 ∧
    ((AVStatus.init 0).getStatus 9).2 = AVStatus.init 0 ∧
    ((AVStatus.init 0).getStatus 5).1.availableCalls =
      ((AVStatus.init 0).getStatus 9).1.availableCalls ∧
    ((AVStatus.init 0).getStatus 5).1.callsMadeThisMinute =
      ((AVStatus.init 0).getStatus 9).1.callsMadeThisMinute ∧
    ((AVStatus.init 0).getStatus 5).1.isRateLimited =
      ((AVStatus.init 0).getStatus 9).1.isRateLimited ∧
    ((AVStatus.init 0).getStatus 5).1.recentCalls =
      ((AVStatus.init 0).getStatus 9).1.recentCalls :=
  getStatus_pure_without_expiry (AVStatus.init 0) 5 9 (by decide) (by decide)

/-! ### C4: explicit throttling -/

/-- With both windows empty, positive caps, and the flag down, `admitCore`
always admits and leaves the flag down. -/
theorem RateLimiter.admitCore_empty (cfg : RateLimiterConfig) (rl : RateLimiter)
    (st : AVStatus) (now : Nat)
    (hcm : 0 < cfg.callsPerMinute) (hcd : 0 < cfg.callsPerDay)
    (hmc : rl.minuteCalls = []) (hdc : rl.dayCalls = [])
    (hirl : rl.isRateLimited = false) :
    (RateLimiter.admitCore cfg rl st now).proceed = true ∧
    (RateLimiter.admitCore cfg rl st now).limiter.isRateLimited = false := by
  unfold RateLimiter.admitCore
  dsimp only
  rw [hmc, hdc]
  simp only [List.dropWhile_nil, List.length_nil]
  rw [if_neg (by omega)]
  unfold RateLimiter.admitTail
  dsimp only
  rw [if_neg (by simp only [List.length_nil]; omega)]
  exact ⟨rfl, hirl⟩

/-- C4: after `mark_rate_limited()` at instant `m` (which throttles for 60
seconds), every `wait_if_needed` attempt strictly before `m + 60` is
refused and leaves the limiter state unchanged, and any first attempt at or
after `m + 60` clears the throttle flag and is admitted (the windows having
been cleared, the window check always permits it, given positive caps). -/
theorem markRateLimited_refuse_then_clear
    (cfg : RateLimiterConfig) (rl : RateLimiter) (st stA stB : AVStatus) (m : Nat)
    (hcm : 0 < cfg.callsPerMinute) (hcd : 0 < cfg.callsPerDay) :
    (∀ t, t < m + 60 →
      (RateLimiter.waitIfNeeded cfg (rl.markRateLimited st m).1 stA t).proceed = false ∧
      (RateLimiter.waitIfNeeded cfg (rl.markRateLimited st m).1 stA t).limiter =
        (rl.markRateLimited st m).1) ∧
    (∀ t, m + 60 ≤ t →
      (RateLimiter.waitIfNeeded cfg (rl.markRateLimited st m).1 stB t).proceed = true ∧
      (RateLimiter.waitIfNeeded cfg (rl.markRateLimited st m).1 stB t).limiter.isRateLimited =
        false) := by
  constructor
  · intro t ht
    unfold RateLimiter.waitIfNeeded RateLimiter.markRateLimited
    dsimp only
    rw [if_pos rfl, if_pos ht]
    exact ⟨rfl, rfl⟩
  · intro t ht
    unfold RateLimiter.waitIfNeeded RateLimiter.markRateLimited
    dsimp only
    rw [if_pos rfl, if_neg (Nat.not_lt.mpr ht)]
    exact RateLimiter.admitCore_empty cfg _ _ t hcm hcd rfl rfl rfl

/-- Witness for `markRateLimited_refuse_then_clear`: marked at second 100,
an attempt at 50 is refused and an attempt at 200 is admitted. -/
theorem markRateLimited_refuse_then_clear_witness :
    ((RateLimiter.waitIfNeeded ⟨4, 500⟩
        (RateLimiter.init.markRateLimited (AVStatus.init 0) 100).1
        (AVStatus.init 0) 50).proceed = false ∧
      (RateLimiter.waitIfNeeded ⟨4, 500⟩
        (RateLimiter.init.markRateLimited (AVStatus.init 0) 100).1
        (AVStatus.init 0) 50).limiter =
        (RateLimiter.init.markRateLimited (AVStatus.init 0) 100).1) ∧
    ((RateLimiter.waitIfNeeded ⟨4, 500⟩
        (RateLimiter.init.markRateLimited (AVStatus.init 0) 100).1
        (AVStatus.init 0) 200).proceed = true ∧
      (RateLimiter.waitIfNeeded ⟨4, 500⟩
        (RateLimiter.init.markRateLimited (AVStatus.init 0) 100).1
        (AVStatus.init 0) 200).limiter.isRateLimited = false) :=
  ⟨(markRateLimited_refuse_then_clear ⟨4, 500⟩ RateLimiter.init (AVStatus.init 0)
      (AVStatus.init 0) (AVStatus.init 0) 100 (by decide) (by decide)).1 50 (by decide),
   (markRateLimited_refuse_then_clear ⟨4, 500⟩ RateLimiter.init (AVStatus.init 0)
      (AVStatus.init 0) (AVStatus.init 0) 100 (by decide) (by decide)).2 200 (by decide)⟩

/-! ### C5: the embedded throttle note -/

/-- The minute-window reset touches neither the throttle flag nor the
throttle deadline. -/
theorem AVStatus.minuteRoll_throttle (st : AVStatus) (now : Nat) :
    (st.minuteRoll now).isRateLimited = st.isRateLimited ∧
    (st.minuteRoll now).resetTime = st.resetTime := by
  unfold AVStatus.minuteRoll
  split <;> exact ⟨rfl, rfl⟩

/-- A failed-call update touches neither the throttle flag nor the throttle
deadline. -/
theorem AVStatus.update_false_throttle (st : AVStatus) (now : Nat) (f s : String) :
    (st.update now f s false).isRateLimited = st.isRateLimited ∧
    (st.update now f s false).resetTime = st.resetTime := by
  unfold AVStatus.update
  simp only [Bool.false_eq_true, if_false]
  exact AVStatus.minuteRoll_throttle st now

/-- A snapshot taken while the throttle deadline lies in the future reports
the throttled flag. -/
theorem AVStatus.getStatus_isRateLimited_of_future (st : AVStatus) (now r : Nat)
    (hrl : st.isRateLimited = true) (hr : st.resetTime = some r)
    (hfut : ¬ r ≤ now) :
    (st.getStatus now).1.isRateLimited = true := by
  unfold AVStatus.getStatus AVStatus.checkReset
  rw [hrl, hr]
  dsimp only
  rw [if_pos rfl, if_neg hfut]
  exact hrl

/-- C5 (amended): for a 200 response whose JSON body carries a `Note`
containing the substring "API call frequency" and no `Error Message` field,
a fetch that reaches the request (key set, limiter not already throttled,
admission granted) returns the rate-limited error, marks the limiter, and a
snapshot taken immediately afterwards reports `is_rate_limited = true`. -/
theorem fetch_note_throttles (cfg : RateLimiterConfig)
    (function symbol note payload : String) (info : Option String)
    (bm : Option (List MatchEntry)) (rl : RateLimiter) (st : AVStatus) (now : Nat)
    (hrl : rl.isRateLimited = false)
    (hw : (RateLimiter.waitIfNeeded cfg rl st now).proceed = true)
    (hnote : containsSubstr "API call frequency" note = true) :
    (fetchAlphaVantageData cfg true function symbol
        (HttpResponse.ok (BodyKind.json ⟨none, some note, info, bm, payload⟩))
        rl st now).result = FetchResult.err "Failed to fetch data. Rate limit exceeded." ∧
    (fetchAlphaVantageData cfg true function symbol
        (HttpResponse.ok (BodyKind.json ⟨none, some note, info, bm, payload⟩))
        rl st now).limiter.isRateLimited = true ∧
    ((fetchAlphaVantageData cfg true function symbol
        (HttpResponse.ok (BodyKind.json ⟨none, some note, info, bm, payload⟩))
        rl st now).status.getStatus
      (fetchAlphaVantageData cfg true function symbol
        (HttpResponse.ok (BodyKind.json ⟨none, some note, info, bm, payload⟩))
        rl st now).effectiveNow).1.isRateLimited = true := by
  unfold fetchAlphaVantageData
  rw [if_neg (by decide)]
  rw [if_neg (by
    intro hc
    rw [isIndianStock_format symbol] at hc
    exact absurd hc.2 (by decide))]
  rw [if_neg (by rw [hrl]; decide)]
  dsimp only
  rw [if_neg (by rw [hw]; decide)]
  unfold classifyResponse
  dsimp only
  rw [if_pos hnote]
  refine ⟨rfl, rfl, ?_⟩
  dsimp only
  have hth := AVStatus.update_false_throttle
    ((RateLimiter.waitIfNeeded cfg rl st now).limiter.markRateLimited
      (RateLimiter.waitIfNeeded cfg rl st now).status
      (RateLimiter.waitIfNeeded cfg rl st now).effectiveNow).2
    (RateLimiter.waitIfNeeded cfg rl st now).effectiveNow function symbol
  exact AVStatus.getStatus_isRateLimited_of_future _ _
    ((RateLimiter.waitIfNeeded cfg rl st now).effectiveNow + 60)
    (by rw [hth.1]; rfl) (by rw [hth.2]; rfl) (by omega)

/-- Witness for `fetch_note_throttles`: the provider's standard throttle
note on a fresh limiter. -/
theorem fetch_note_throttles_witness :
    (fetchAlphaVantageData ⟨4, 500⟩ true "GLOBAL_QUOTE" "NSE:RELIANCE"
        (HttpResponse.ok (BodyKind.json ⟨none,
          some "Thank you for using Alpha Vantage! Our standard API call frequency is 5 calls per minute and 500 calls per day.",
          none, none, ""⟩))
        RateLimiter.init (AVStatus.init 0) 0).result =
      FetchResult.err "Failed to fetch data. Rate limit exceeded." ∧
    (fetchAlphaVantageData ⟨4, 500⟩ true "GLOBAL_QUOTE" "NSE:RELIANCE"
        (HttpResponse.ok (BodyKind.json ⟨none,
          some "Thank you for using Alpha Vantage! Our standard API call frequency is 5 calls per minute and 500 calls per day.",
          none, none, ""⟩))
        RateLimiter.init (AVStatus.init 0) 0).limiter.isRateLimited = true ∧
    ((fetchAlphaVantageData ⟨4, 500⟩ true "GLOBAL_QUOTE" "NSE:RELIANCE"
        (HttpResponse.ok (BodyKind.json ⟨none,
          some "Thank you for using Alpha Vantage! Our standard API call frequency is 5 calls per minute and 500 calls per day.",
          none, none, ""⟩))
        RateLimiter.init (AVStatus.init 0) 0).status.getStatus
      (fetchAlphaVantageData ⟨4, 500⟩ true "GLOBAL_QUOTE" "NSE:RELIANCE"
        (HttpResponse.ok (BodyKind.json ⟨none,
          some "Thank you for using Alpha Vantage! Our standard API call frequency is 5 calls per minute and 500 calls per day.",
          none, none, ""⟩))
        RateLimiter.init (AVStatus.init 0) 0).effectiveNow).1.isRateLimited = true :=
  fetch_note_throttles ⟨4, 500⟩ "GLOBAL_QUOTE" "NSE:RELIANCE"
    "Thank you for using Alpha Vantage! Our standard API call frequency is 5 calls per minute and 500 calls per day."
    "" none none RateLimiter.init (AVStatus.init 0) 0 rfl (by decide) (by decide)

/-- C5 counterexample: the classifier checks `Error Message` before `Note`,
so a 200 body carrying both an `Error Message` and a throttle `Note`
returns the provider-error result, does not throttle, and the immediate
snapshot still reports `is_rate_limited = false` — the claim as stated
(over every body whose `Note` contains "API call frequency") fails. -/
theorem fetch_note_priority_counterexample :
    (fetchAlphaVantageData ⟨4, 500⟩ true "GLOBAL_QUOTE" "NSE:RELIANCE"
        (HttpResponse.ok (BodyKind.json ⟨some "Invalid API call",
          some "Our standard API call frequency is 5 calls per minute.",
          none, none, ""⟩))
        RateLimiter.init (AVStatus.init 0) 0).result =
      FetchResult.err "API Error: Invalid API call" ∧
    (fetchAlphaVantageData ⟨4, 500⟩ true "GLOBAL_QUOTE" "NSE:RELIANCE"
        (HttpResponse.ok (BodyKind.json ⟨some "Invalid API call",
          some "Our standard API call frequency is 5 calls per minute.",
          none, none, ""⟩))
        RateLimiter.init (AVStatus.init 0) 0).result ≠
      FetchResult.err "Failed to fetch data. Rate limit exceeded." ∧
    ((fetchAlphaVantageData ⟨4, 500⟩ true "GLOBAL_QUOTE" "NSE:RELIANCE"
        (HttpResponse.ok (BodyKind.json ⟨some "Invalid API call",
          some "Our standard API call frequency is 5 calls per minute.",
          none, none, ""⟩))
        RateLimiter.init (AVStatus.init 0) 0).status.getStatus
      (fetchAlphaVantageData ⟨4, 500⟩ true "GLOBAL_QUOTE" "NSE:RELIANCE"
        (HttpResponse.ok (BodyKind.json ⟨some "Invalid API call",
          some "Our standard API call frequency is 5 calls per minute.",
          none, none, ""⟩))
        RateLimiter.init (AVStatus.init 0) 0).effectiveNow).1.isRateLimited = false := by
  refine ⟨rfl, by decide, rfl⟩

/-! ### C8: minimum spacing between admissions -/

/-- `admitCore`: the effective instant of an admitted call lies at least 12
seconds after the previously stamped `last_request_time`; admission stamps
`last_request_time` with the effective instant; refusal keeps it. -/
theorem RateLimiter.admitCore_last (cfg : RateLimiterConfig) (rl : RateLimiter)
    (st : AVStatus) (now : Nat) :
    ((RateLimiter.admitCore cfg rl st now).proceed = true →
      (RateLimiter.admitCore cfg rl st now).limiter.lastRequestTime =
        some (RateLimiter.admitCore cfg rl st now).effectiveNow) ∧
    ((RateLimiter.admitCore cfg rl st now).proceed = true →
      ∀ t1, rl.lastRequestTime = some t1 →
        t1 + 12 ≤ (RateLimiter.admitCore cfg rl st now).effectiveNow) ∧
    ((RateLimiter.admitCore cfg rl st now).proceed = false →
      (RateLimiter.admitCore cfg rl st now).limiter.lastRequestTime =
        rl.lastRequestTime) := by
  unfold RateLimiter.admitCore RateLimiter.admitTail
  cases hlrt : rl.lastRequestTime with
  | none =>
    dsimp only
    split
    · split
      · exact ⟨fun h => by simp at h, fun h => by simp at h, fun _ => rfl⟩
      · split
        · exact ⟨fun h => by simp at h, fun h => by simp at h, fun _ => rfl⟩
        · exact ⟨fun _ => rfl, fun h t1 h1 => by simp at h1, fun h => by simp at h⟩
    · split
      · exact ⟨fun h => by simp at h, fun h => by simp at h, fun _ => rfl⟩
      · exact ⟨fun _ => rfl, fun h t1 h1 => by simp at h1, fun h => by simp at h⟩
  | some t0 =>
    dsimp only
    by_cases hsp : now < t0 + 12
    · simp only [if_pos hsp]
      split
      · split
        · exact ⟨fun h => by simp at h, fun h => by simp at h, fun _ => rfl⟩
        · split
          · exact ⟨fun h => by simp at h, fun h => by simp at h, fun _ => rfl⟩
          · refine ⟨fun _ => rfl, fun h t1 h1 => ?_, fun h => by simp at h⟩
            obtain rfl : t1 = t0 := (Option.some.inj h1).symm
            dsimp only
            omega
      · split
        · exact ⟨fun h => by simp at h, fun h => by simp at h, fun _ => rfl⟩
        · refine ⟨fun _ => rfl, fun h t1 h1 => ?_, fun h => by simp at h⟩
          obtain rfl : t1 = t0 := (Option.some.inj h1).symm
          dsimp only
          omega
    · simp only [if_neg hsp]
      split
      · split
        · exact ⟨fun h => by simp at h, fun h => by simp at h, fun _ => rfl⟩
        · split
          · exact ⟨fun h => by simp at h, fun h => by simp at h, fun _ => rfl⟩
          · refine ⟨fun _ => rfl, fun h t1 h1 => ?_, fun h => by simp at h⟩
            obtain rfl : t1 = t0 := (Option.some.inj h1).symm
            dsimp only
            omega
      · split
        · exact ⟨fun h => by simp at h, fun h => by simp at h, fun _ => rfl⟩
        · refine ⟨fun _ => rfl, fun h t1 h1 => ?_, fun h => by simp at h⟩
          obtain rfl : t1 = t0 := (Option.some.inj h1).symm
          dsimp only
          omega

/-- `wait_if_needed`: same three spacing facts as `admitCore_last`, through
the throttle/reset phase (which clears windows but keeps
`last_request_time`). -/
theorem RateLimiter.waitIfNeeded_last (cfg : RateLimiterConfig) (rl : RateLimiter)
    (st : AVStatus) (now : Nat) :
    ((RateLimiter.waitIfNeeded cfg rl st now).proceed = true →
      (RateLimiter.waitIfNeeded cfg rl st now).limiter.lastRequestTime =
        some (RateLimiter.waitIfNeeded cfg rl st now).effectiveNow) ∧
    ((RateLimiter.waitIfNeeded cfg rl st now).proceed = true →
      ∀ t1, rl.lastRequestTime = some t1 →
        t1 + 12 ≤ (RateLimiter.waitIfNeeded cfg rl st now).effectiveNow) ∧
    ((RateLimiter.waitIfNeeded cfg rl st now).proceed = false →
      (RateLimiter.waitIfNeeded cfg rl st now).limiter.lastRequestTime =
        rl.lastRequestTime) := by
  unfold RateLimiter.waitIfNeeded
  split
  · split
    · split
      · exact ⟨fun h => by simp at h, fun h => by simp at h, fun _ => rfl⟩
      · exact RateLimiter.admitCore_last cfg
          { rl with isRateLimited := false, minuteCalls := [], dayCalls := [] }
          ((st.checkReset now).2) now
    · exact RateLimiter.admitCore_last cfg rl st now
  · exact RateLimiter.admitCore_last cfg rl st now

/-- Along any attempt trace, consecutive admissions are at least 12 seconds
apart; moreover the first admission comes at least 12 seconds after any
previously stamped `last_request_time`. -/
theorem runAttempts_chain (cfg : RateLimiterConfig) :
    ∀ (ts : List Nat) (rl : RateLimiter) (st : AVStatus),
      List.Chain' (fun a b => a + 12 ≤ b) (runAttempts cfg rl st ts) ∧
      (∀ t1 a, rl.lastRequestTime = some t1 →
        (runAttempts cfg rl st ts).head? = some a → t1 + 12 ≤ a) := by
  intro ts
  induction ts with
  | nil =>
    intro rl st
    exact ⟨List.chain'_nil, fun t1 a _ h => by simp [runAttempts] at h⟩
  | cons t ts ih =>
    intro rl st
    obtain ⟨h1, h2, h3⟩ := RateLimiter.waitIfNeeded_last cfg rl st t
    by_cases hp : (RateLimiter.waitIfNeeded cfg rl st t).proceed = true
    · have hrun : runAttempts cfg rl st (t :: ts) =
          (RateLimiter.waitIfNeeded cfg rl st t).effectiveNow ::
            runAttempts cfg (RateLimiter.waitIfNeeded cfg rl st t).limiter
              (RateLimiter.waitIfNeeded cfg rl st t).status ts := by
        unfold runAttempts
        dsimp only
        rw [if_pos hp]
        cases ts <;> rfl
      obtain ⟨ihc, ihh⟩ := ih (RateLimiter.waitIfNeeded cfg rl st t).limiter
        (RateLimiter.waitIfNeeded cfg rl st t).status
      constructor
      · rw [hrun]
        refine List.Chain'.cons' ihc ?_
        intro y hy
        rw [Option.mem_def] at hy
        exact ihh _ y (h1 hp) hy
      · intro t1 a hlast hhead
        rw [hrun] at hhead
        simp only [List.head?_cons, Option.some.injEq] at hhead
        subst hhead
        exact h2 hp t1 hlast
    · have hp' : (RateLimiter.waitIfNeeded cfg rl st t).proceed = false := by
        revert hp
        cases (RateLimiter.waitIfNeeded cfg rl st t).proceed <;> simp
      have hrun : runAttempts cfg rl st (t :: ts) =
          runAttempts cfg (RateLimiter.waitIfNeeded cfg rl st t).limiter
            (RateLimiter.waitIfNeeded cfg rl st t).status ts := by
        unfold runAttempts
        dsimp only
        rw [if_neg (by rw [hp']; decide)]
        cases ts <;> rfl
      obtain ⟨ihc, ihh⟩ := ih (RateLimiter.waitIfNeeded cfg rl st t).limiter
        (RateLimiter.waitIfNeeded cfg rl st t).status
      constructor
      · rw [hrun]
        exact ihc
      · intro t1 a hlast hhead
        rw [hrun] at hhead
        exact ihh t1 a (by rw [h3 hp', hlast]) hhead

/-- C8: along every sequence of admission attempts, no two successive
admitted (Proceed) decisions occur closer together than the 12-second
minimum inter-call interval. -/
theorem proceed_decisions_min_interval (cfg : RateLimiterConfig)
    (rl : RateLimiter) (st : AVStatus) (ts : List Nat) :
    List.Chain' (fun a b => a + 12 ≤ b) (runAttempts cfg rl st ts) :=
  (runAttempts_chain cfg ts rl st).1

/-! ### C1: the sliding-window caps -/

/-- C1 (code defect exhibited): with the deployed configuration (minute cap
4), the attempt trace 0, 12, 24, 36, 60, 65, 84, 96, 108 is admitted at
effective instants 0, 12, 24, 36, 60, 72, 84, 96, 108 — the attempt at 60
falls through the `wait_time > 0` guard because the oldest window entry is
exactly 60 seconds old, and the attempt at 65 clears both windows (the
expired minute-limit reset wipes entries that are still young).  Five
admissions then lie inside the 48-second span [60, 108], exceeding the
4-per-60-seconds cap; the day window is wiped by the same reset, so its cap
is voided too. -/
theorem minute_cap_violated_trace :
    runAttempts ⟨4, 500⟩ RateLimiter.init (AVStatus.init 0)
        [0, 12, 24, 36, 60, 65, 84, 96, 108] =
      [0, 12, 24, 36, 60, 72, 84, 96, 108] ∧
    (runAttempts ⟨4, 500⟩ RateLimiter.init (AVStatus.init 0)
        [0, 12, 24, 36, 60, 65, 84, 96, 108]).countP
      (fun a => decide (60 ≤ a) && decide (a ≤ 108)) = 5 ∧
    108 - 60 < 60 ∧ (5 : Nat) > 4 := by
  decide

/-! ### C6: the trending aggregator -/

/-- Transitivity of the cross-multiplied decimal order. -/
theorem absValLe_trans {x y z : Nat × Nat} (h1 : absValLe x y) (h2 : absValLe y z) :
    absValLe x z := by
  unfold absValLe at *
  have h1' := Nat.mul_le_mul_right (10 ^ z.2) h1
  have h2' := Nat.mul_le_mul_right (10 ^ x.2) h2
  have hy : 0 < 10 ^ y.2 := Nat.pos_pow_of_pos _ (by norm_num)
  apply Nat.le_of_mul_le_mul_right _ hy
  calc x.1 * 10 ^ z.2 * 10 ^ y.2
      = x.1 * 10 ^ y.2 * 10 ^ z.2 := by ring
    _ ≤ y.1 * 10 ^ x.2 * 10 ^ z.2 := h1'
    _ = y.1 * 10 ^ z.2 * 10 ^ x.2 := by ring
    _ ≤ z.1 * 10 ^ y.2 * 10 ^ x.2 := h2'
    _ = z.1 * 10 ^ x.2 * 10 ^ y.2 := by ring

/-- C6 counterexample: with `limit = 2`, one live quote for NSE:RELIANCE and
then a rate-limit error, the fallback padding re-adds NSE:RELIANCE — the
result contains a duplicate symbol, refuting the claimed dedup-on-padding. -/
theorem trending_duplicate_symbols_counterexample :
    ((getIndiaTrendingStocks 2 false
        (fun k => if k = 0 then QuoteOutcome.quote "2856.15" "2.0%"
          else QuoteOutcome.errMsg "Failed to fetch data. Rate limit exceeded." true)).map
      (fun e => e.symbol)) = ["NSE:RELIANCE", "NSE:RELIANCE"] ∧
    ¬ ((getIndiaTrendingStocks 2 false
        (fun k => if k = 0 then QuoteOutcome.quote "2856.15" "2.0%"
          else QuoteOutcome.errMsg "Failed to fetch data. Rate limit exceeded." true)).map
      (fun e => e.symbol)).Nodup := by
  constructor
  · rfl
  · decide

/-- C6 (amended): for every `limit` within the size of the static fallback
catalogue (8 entries), the trending operation returns exactly `limit`
entries; when the limiter is not already throttled at entry and every
combined entry's change-percent string parses as a decimal, the result is
sorted by descending absolute change percent.  The fallback padding simply
appends the leading static entries without skipping symbols already
present, so duplicates can occur (see the counterexample). -/
theorem trending_exact_limit_sorted (limit : Nat) (h8 : limit ≤ 8)
    (flag : Bool) (outcome : Nat → QuoteOutcome) :
    (getIndiaTrendingStocks limit flag outcome).length = limit ∧
    ((∀ e ∈ trendingCombined limit outcome, (trendKey e).isSome = true) →
      List.Sorted
        (fun a b => absValLe ((trendKey b).getD (0, 0)) ((trendKey a).getD (0, 0)))
        (getIndiaTrendingStocks limit false outcome)) := by
  have hstatic : staticTrending.length = 8 := rfl
  constructor
  · unfold getIndiaTrendingStocks
    split
    · unfold getStaticTrendingStocks
      rw [List.length_take]
      omega
    · rw [List.length_take]
      have hs : (sortTrending (trendingCombined limit outcome)).length =
          (trendingCombined limit outcome).length := by
        unfold sortTrending
        split
        · exact (List.perm_insertionSort _ _).length_eq
        · rfl
      have hcomb : limit ≤ (trendingCombined limit outcome).length := by
        unfold trendingCombined
        dsimp only
        split
        · rw [List.length_append]
          unfold getStaticTrendingStocks
          rw [List.length_take]
          omega
        · next hcond =>
          simp only [Bool.or_eq_true, decide_eq_true_eq, not_or] at hcond
          omega
      omega
  · intro hall
    unfold getIndiaTrendingStocks
    rw [if_neg (by decide)]
    have hsort : sortTrending (trendingCombined limit outcome) =
        List.insertionSort
          (fun a b => absValLe ((trendKey b).getD (0, 0)) ((trendKey a).getD (0, 0)))
          (trendingCombined limit outcome) := by
      unfold sortTrending
      rw [if_pos (List.all_eq_true.mpr hall)]
    rw [hsort]
    haveI : IsTotal TrendEntry
        (fun a b => absValLe ((trendKey b).getD (0, 0)) ((trendKey a).getD (0, 0))) :=
      ⟨fun a b => Nat.le_total _ _⟩
    haveI : IsTrans TrendEntry
        (fun a b => absValLe ((trendKey b).getD (0, 0)) ((trendKey a).getD (0, 0))) :=
      ⟨fun a b c hab hbc => absValLe_trans hbc hab⟩
    exact List.Pairwise.sublist (List.take_sublist _ _)
      (List.sorted_insertionSort _ _)

/-- Witness for `trending_exact_limit_sorted`: `limit = 2` with no usable
live quotes, so the result is the first two fallback entries. -/
theorem trending_exact_limit_sorted_witness :
    (getIndiaTrendingStocks 2 false (fun _ => QuoteOutcome.noQuote)).length = 2 ∧
    ((∀ e ∈ trendingCombined 2 (fun _ => QuoteOutcome.noQuote),
        (trendKey e).isSome = true) →
      List.Sorted
        (fun a b => absValLe ((trendKey b).getD (0, 0)) ((trendKey a).getD (0, 0)))
        (getIndiaTrendingStocks 2 false (fun _ => QuoteOutcome.noQuote))) :=
  trending_exact_limit_sorted 2 (by decide) false (fun _ => QuoteOutcome.noQuote)
